import Mathlib

/-!
Shallow embedding of `transaction.ts` (the metal internals package):
the render-transaction integrity tracker (`TransactionRunner`) that detects
values mutated after having been rendered within the same transaction.

Modelling choices:
* Object identity is modelled by `Nat`; keys are `String`.
* The `WeakMap<object, any>` together with the per-object inner maps
  (`Object.create(null)` dictionaries) become
  `Nat → Option (String → Option Record)`.
* The build-mode flag `DEBUG` from `@glimmer/env` becomes an explicit
  `debug : Bool` parameter: the class comments in the source describe the two
  states (DEBUG and RELEASE) its methods branch between.
* A thrown JavaScript value is modelled as `Option String` paired with the
  state at the moment of the throw (string = the thrown value / TypeError
  message); `none` means normal completion.
* The wrapped operation `(context[methodName])()` interacts with the runner
  only through `didRender` / `assertNotRendered` / `hasRendered` calls and by
  possibly throwing, so it is modelled as a list of `Action`s.
-/

namespace EmberTransaction

/-- `DebugStack` collaborator: `peek(): string | void`. The label it would
return is baked in (`none` models `undefined`/void). -/
structure DebugStack where
  peek : Option String
deriving DecidableEq

/-- The `env` object of a `DebugContext`, exposing `debugStack`. -/
structure Env where
  debugStack : DebugStack
deriving DecidableEq

/-- The `context` passed to `runInTransaction`. `env = none` models a context
whose `env` property is `undefined`, so that reading `context.env.debugStack`
throws a TypeError. -/
structure Context where
  env : Option Env
deriving DecidableEq

/-- The `reference` value passed to `didRender`: opaque except for an optional
`debug()` self-description method; `debug = some s` models a reference whose
`debug()` method returns `s`, `none` models a reference without that method.
A JS-falsy / absent reference is `Option Ref`s `none` at use sites. -/
structure Ref where
  debug : Option String
deriving DecidableEq

/-- Value stored in the per-object map for a key.
In DEBUG mode: `{ lastRef, lastRenderedIn }`; in RELEASE mode: the current
`transactionId` (a number). -/
inductive Record where
  | debugRec (lastRef : Option Ref) (lastRenderedIn : Option String)
  | releaseRec (tid : Nat)
deriving DecidableEq

/-- JS template-literal interpolation of a possibly-undefined string. -/
def optStr : Option String → String
  | some s => s
  | none => "undefined"

/-- The mutable fields of the singleton `TransactionRunner`, plus `assertLog`,
the trace of messages raised through the external assertion facility. -/
structure RunnerState where
  transactionId : Nat
  inTransaction : Bool
  shouldReflush : Bool
  weakMap : Nat → Option (String → Option Record)
  debugStack : Option DebugStack
  assertLog : List String

/-- `new TransactionRunner()`: the constructor state. -/
def initialRunner : RunnerState :=
  { transactionId := 0
    inTransaction := false
    shouldReflush := false
    weakMap := fun _ => none
    debugStack := none
    assertLog := [] }

/-- `getOrCreateMap`: the inner map for `obj`, or a fresh empty one.
(The source also stores the freshly created map in the weak map; the sole
caller `setKey` immediately overwrites that slot, so the net effect is the
same.) -/
def RunnerState.getOrCreateMap (st : RunnerState) (obj : Nat) : String → Option Record :=
  match st.weakMap obj with
  | some m => m
  | none => fun _ => none

/-- `setKey(object, key, value)`: `map[key] = value` on the per-object map. -/
def RunnerState.setKey (st : RunnerState) (obj : Nat) (key : String) (v : Record) :
    RunnerState :=
  let m := st.getOrCreateMap obj
  { st with
    weakMap := fun o =>
      if o = obj then some (fun k => if k = key then some v else m k)
      else st.weakMap o }

/-- `getKey(object, key)`: returns `undefined` (`none`) when the object has no
map or the key is absent. -/
def RunnerState.getKey (st : RunnerState) (obj : Nat) (key : String) : Option Record :=
  match st.weakMap obj with
  | some m => m key
  | none => none

/-- `clearObjectMap()`: `this.weakMap = new WeakMap()`. -/
def RunnerState.clearObjectMap (st : RunnerState) : RunnerState :=
  { st with weakMap := fun _ => none }

/-- `hasRendered(object, key)`. -/
def RunnerState.hasRendered (debug : Bool) (st : RunnerState) (obj : Nat)
    (key : String) : Bool :=
  if !st.inTransaction then false
  else if debug then (st.getKey obj key).isSome
  else
    match st.getKey obj key with
    | some (.releaseRec t) => t == st.transactionId
    | _ => false

/-- `didRender(object, key, reference)`. In DEBUG mode `this.debugStack!.peek()`
throws a TypeError when `debugStack` is `undefined` (the `!` non-null
assertion is erased at runtime). -/
def RunnerState.didRender (debug : Bool) (st : RunnerState) (obj : Nat) (key : String)
    (reference : Option Ref) : Option String × RunnerState :=
  if !st.inTransaction then (none, st)
  else if debug then
    match st.debugStack with
    | none => (some "TypeError: this.debugStack is undefined", st)
    | some ds => (none, st.setKey obj key (.debugRec reference ds.peek))
  else (none, st.setKey obj key (.releaseRec st.transactionId))

/-- The `label` computed for the hazard message: uses the rendered value's
self-description when `lastRef` is truthy and has a `debug` method. -/
def hazardLabel (lastRef : Option Ref) (lastRenderedIn : Option String) : String :=
  match lastRef with
  | some r =>
    match r.debug with
    | some d => s!"as `{d}` in {optStr lastRenderedIn}"
    | none => s!"in {optStr lastRenderedIn}"
  | none => s!"in {optStr lastRenderedIn}"

/-- The message passed to `assert` when a hazard is detected. -/
def hazardMessage (obj : Nat) (label : String) (currentlyIn : Option String) : String :=
  s!"You modified `{obj}` twice in a single render. It was first rendered {label} and then modified later in {optStr currentlyIn}. This was unreliable and slow in Ember 1.x and is no longer supported. See https://github.com/emberjs/ember.js/issues/13948 for more details."

/-- Modelled from the spec: `assert` from `@ember/debug` is not under `src/`;
the spec describes it as "a non-fatal warning assertion (the assertion
facility itself decides whether this halts execution; this component does not
halt)", so raising it is modelled as recording the message without throwing. -/
def raiseAssertion (msg : String) (st : RunnerState) : RunnerState :=
  { st with assertLog := st.assertLog ++ [msg] }

/-- `assertNotRendered(object, key)`. In the DEBUG branch the source first
destructures `getKey(object, key)` (destructuring `undefined` would throw),
then calls `this.debugStack!.peek()`; destructuring a RELEASE-shape numeric
record yields `undefined` fields. `this.shouldReflush = true` runs after the
DEBUG-only diagnostic, unconditionally on build mode. -/
def RunnerState.assertNotRendered (debug : Bool) (st : RunnerState) (obj : Nat)
    (key : String) : Option String × RunnerState :=
  if !st.inTransaction then (none, st)
  else if RunnerState.hasRendered debug st obj key then
    if debug then
      match st.getKey obj key, st.debugStack with
      | none, _ => (some "TypeError: cannot destructure undefined", st)
      | some _, none => (some "TypeError: this.debugStack is undefined", st)
      | some r, some ds =>
        let fields :=
          match r with
          | .debugRec lastRef lastRenderedIn => (lastRef, lastRenderedIn)
          | .releaseRec _ => (none, none)
        let currentlyIn := ds.peek
        let label := hazardLabel fields.1 fields.2
        let st1 := raiseAssertion (hazardMessage obj label currentlyIn) st
        (none, { st1 with shouldReflush := true })
    else (none, { st with shouldReflush := true })
  else (none, st)

/-- `before(context)`: marks the transaction active and resets the reflush
flag first; in DEBUG mode then reads `context.env.debugStack`, which throws a
TypeError when `env` is `undefined` — with the flag mutations already done. -/
def RunnerState.before (debug : Bool) (st : RunnerState) (context : Context) :
    Option String × RunnerState :=
  let st1 := { st with inTransaction := true, shouldReflush := false }
  if debug then
    match context.env with
    | none => (some "TypeError: context.env is undefined", st1)
    | some e => (none, { st1 with debugStack := some e.debugStack })
  else (none, st1)

/-- `after()`: increments `transactionId`, deactivates, clears the debug stack
reference (DEBUG only) and replaces the weak map wholesale. -/
def RunnerState.after (debug : Bool) (st : RunnerState) : RunnerState :=
  let st1 := { st with transactionId := st.transactionId + 1, inTransaction := false }
  let st2 := if debug then { st1 with debugStack := none } else st1
  RunnerState.clearObjectMap st2

/-- One step of the wrapped operation: a runner call-back or a throw. -/
inductive Action where
  | callDidRender (obj : Nat) (key : String) (reference : Option Ref)
  | callAssertNotRendered (obj : Nat) (key : String)
  | callHasRendered (obj : Nat) (key : String)
  | throwErr (e : String)
deriving DecidableEq

/-- Effect of one action on the runner (`hasRendered` is a pure query). -/
def runAction (debug : Bool) (a : Action) (st : RunnerState) :
    Option String × RunnerState :=
  match a with
  | .callDidRender obj key r => RunnerState.didRender debug st obj key r
  | .callAssertNotRendered obj key => RunnerState.assertNotRendered debug st obj key
  | .callHasRendered _ _ => (none, st)
  | .throwErr e => (some e, st)

/-- Runs the wrapped operation; stops at the first thrown value. -/
def runOp (debug : Bool) (op : List Action) (st : RunnerState) :
    Option String × RunnerState :=
  match op with
  | [] => (none, st)
  | a :: rest =>
    match runAction debug a st with
    | (some e, st1) => (some e, st1)
    | (none, st1) => runOp debug rest st1

/-- Result of a `runInTransaction` call: a returned boolean or a propagated
thrown value. -/
inductive TxOutcome where
  | normal (reflush : Bool)
  | thrown (e : String)
deriving DecidableEq

/-- `TransactionRunner.runInTransaction(context, methodName)`:
`before` runs outside the `try`, the operation inside `try`, `after` in the
`finally`; the returned boolean is `this.shouldReflush` read after `after`. -/
def runInTransaction (debug : Bool) (context : Context) (op : List Action)
    (st : RunnerState) : TxOutcome × RunnerState :=
  match RunnerState.before debug st context with
  | (some e, st1) => (.thrown e, st1)
  | (none, st1) =>
    match runOp debug op st1 with
    | (some e, st2) => (.thrown e, RunnerState.after debug st2)
    | (none, st2) =>
      let st3 := RunnerState.after debug st2
      (.normal st3.shouldReflush, st3)

/-- The module-level non-DEBUG `runInTransaction`: invokes the operation
(modelled as a transformer of an arbitrary world `α` that may throw) and
returns `false`; a throw propagates (there is no try/finally here). -/
def runInTransactionNonDebug {α : Type} (op : α → Option String × α) (w : α) :
    TxOutcome × α :=
  match op w with
  | (some e, w1) => (.thrown e, w1)
  | (none, w1) => (.normal false, w1)

/-- An action that is a runner call-back (not a throw). -/
def isCall : Action → Bool
  | .throwErr _ => false
  | _ => true

section Lemmas

variable {st : RunnerState}

@[simp] lemma setKey_inTransaction (obj : Nat) (key : String) (v : Record) :
    (st.setKey obj key v).inTransaction = st.inTransaction := rfl

@[simp] lemma setKey_shouldReflush (obj : Nat) (key : String) (v : Record) :
    (st.setKey obj key v).shouldReflush = st.shouldReflush := rfl

@[simp] lemma setKey_transactionId (obj : Nat) (key : String) (v : Record) :
    (st.setKey obj key v).transactionId = st.transactionId := rfl

@[simp] lemma setKey_debugStack (obj : Nat) (key : String) (v : Record) :
    (st.setKey obj key v).debugStack = st.debugStack := rfl

@[simp] lemma raiseAssertion_shouldReflush (msg : String) :
    (raiseAssertion msg st).shouldReflush = st.shouldReflush := rfl

@[simp] lemma raiseAssertion_inTransaction (msg : String) :
    (raiseAssertion msg st).inTransaction = st.inTransaction := rfl

@[simp] lemma raiseAssertion_transactionId (msg : String) :
    (raiseAssertion msg st).transactionId = st.transactionId := rfl

@[simp] lemma raiseAssertion_debugStack (msg : String) :
    (raiseAssertion msg st).debugStack = st.debugStack := rfl

@[simp] lemma raiseAssertion_weakMap (msg : String) :
    (raiseAssertion msg st).weakMap = st.weakMap := rfl

@[simp] lemma getKey_setKey_self (obj : Nat) (key : String) (v : Record) :
    (st.setKey obj key v).getKey obj key = some v := by
  simp [RunnerState.setKey, RunnerState.getKey]

lemma getKey_setKey_ne (obj o : Nat) (key k : String) (v : Record)
    (h : o ≠ obj ∨ k ≠ key) :
    (st.setKey obj key v).getKey o k = st.getKey o k := by
  rcases h with h | h
  · simp [RunnerState.setKey, RunnerState.getKey, h]
  · by_cases ho : o = obj
    · subst ho
      cases hw : st.weakMap o <;>
        simp [RunnerState.setKey, RunnerState.getKey, RunnerState.getOrCreateMap, h, hw]
    · simp [RunnerState.setKey, RunnerState.getKey, ho]

lemma hasRendered_debug_getKey_isSome (obj : Nat) (key : String)
    (h : RunnerState.hasRendered true st obj key = true) :
    (st.getKey obj key).isSome = true := by
  by_cases hin : st.inTransaction
  · simpa [RunnerState.hasRendered, hin] using h
  · simp [RunnerState.hasRendered, hin] at h

lemma didRender_inTx_debug (ds : DebugStack) (obj : Nat) (key : String)
    (ref : Option Ref) (hin : st.inTransaction = true) (hds : st.debugStack = some ds) :
    RunnerState.didRender true st obj key ref =
      (none, st.setKey obj key (.debugRec ref ds.peek)) := by
  simp [RunnerState.didRender, hin, hds]

lemma didRender_inTx_release (obj : Nat) (key : String) (ref : Option Ref)
    (hin : st.inTransaction = true) :
    RunnerState.didRender false st obj key ref =
      (none, st.setKey obj key (.releaseRec st.transactionId)) := by
  simp [RunnerState.didRender, hin]

lemma assertNotRendered_not_rendered (debug : Bool) (obj : Nat) (key : String)
    (h : RunnerState.hasRendered debug st obj key = false) :
    RunnerState.assertNotRendered debug st obj key = (none, st) := by
  by_cases hin : st.inTransaction <;>
    simp [RunnerState.assertNotRendered, hin, h]

lemma assertNotRendered_rendered (debug : Bool) (obj : Nat) (key : String)
    (hin : st.inTransaction = true)
    (hds : debug = true → (st.debugStack).isSome = true)
    (hr : RunnerState.hasRendered debug st obj key = true) :
    ∃ st1, RunnerState.assertNotRendered debug st obj key = (none, st1) ∧
      st1.shouldReflush = true ∧
      st1.inTransaction = st.inTransaction ∧
      st1.transactionId = st.transactionId ∧
      st1.weakMap = st.weakMap ∧
      st1.debugStack = st.debugStack := by
  cases debug with
  | false =>
    refine ⟨{ st with shouldReflush := true }, ?_, rfl, rfl, rfl, rfl, rfl⟩
    simp [RunnerState.assertNotRendered, hin, hr]
  | true =>
    have hsome := hasRendered_debug_getKey_isSome obj key hr
    obtain ⟨r, hgk⟩ := Option.isSome_iff_exists.mp hsome
    obtain ⟨ds, hdss⟩ := Option.isSome_iff_exists.mp (hds rfl)
    cases r with
    | debugRec lastRef lri =>
      have heq : RunnerState.assertNotRendered true st obj key =
          (none, { raiseAssertion (hazardMessage obj (hazardLabel lastRef lri) ds.peek) st
                    with shouldReflush := true }) := by
        simp [RunnerState.assertNotRendered, hin, hr, hgk, hdss]
      exact ⟨_, heq, rfl, rfl, rfl, rfl, rfl⟩
    | releaseRec t =>
      have heq : RunnerState.assertNotRendered true st obj key =
          (none, { raiseAssertion (hazardMessage obj (hazardLabel none none) ds.peek) st
                    with shouldReflush := true }) := by
        simp [RunnerState.assertNotRendered, hin, hr, hgk, hdss]
      exact ⟨_, heq, rfl, rfl, rfl, rfl, rfl⟩

lemma runAction_mono (debug : Bool) (a : Action)
    (h : st.shouldReflush = true) :
    (runAction debug a st).2.shouldReflush = true := by
  cases a with
  | callDidRender obj key r =>
    by_cases hin : st.inTransaction
    · cases debug with
      | true =>
        cases hds : st.debugStack <;>
          simp [runAction, RunnerState.didRender, hin, hds, h]
      | false => simp [runAction, RunnerState.didRender, hin, h]
    · simp [runAction, RunnerState.didRender, hin, h]
  | callAssertNotRendered obj key =>
    by_cases hin : st.inTransaction
    · by_cases hr : RunnerState.hasRendered debug st obj key
      · cases debug with
        | true =>
          cases hgk : st.getKey obj key with
          | none => simp [runAction, RunnerState.assertNotRendered, hin, hr, hgk, h]
          | some r =>
            cases hds : st.debugStack <;>
              simp [runAction, RunnerState.assertNotRendered, hin, hr, hgk, hds, h]
        | false => simp [runAction, RunnerState.assertNotRendered, hin, hr, h]
      · simp [runAction, assertNotRendered_not_rendered debug obj key (by simpa using hr), h]
    · simp [runAction, RunnerState.assertNotRendered, hin, h]
  | callHasRendered obj key => simpa [runAction] using h
  | throwErr e => simpa [runAction] using h

lemma runOp_mono (debug : Bool) (op : List Action)
    (h : st.shouldReflush = true) :
    (runOp debug op st).2.shouldReflush = true := by
  induction op generalizing st with
  | nil => simpa [runOp] using h
  | cons a rest ih =>
    have ha := @runAction_mono st debug a h
    cases hra : runAction debug a st with
    | mk e1 st1 =>
      rw [hra] at ha
      cases e1 with
      | none => simpa [runOp, hra] using ih ha
      | some e => simpa [runOp, hra] using ha

lemma runAction_call_ok (a : Action) (ha : isCall a = true) (ds : DebugStack)
    (hds : st.debugStack = some ds) :
    (runAction true a st).1 = none ∧
      (runAction true a st).2.debugStack = some ds ∧
      (runAction true a st).2.transactionId = st.transactionId ∧
      (runAction true a st).2.inTransaction = st.inTransaction := by
  cases a with
  | callDidRender obj key r =>
    by_cases hin : st.inTransaction <;>
      simp [runAction, RunnerState.didRender, hin, hds]
  | callAssertNotRendered obj key =>
    by_cases hin : st.inTransaction
    · by_cases hr : RunnerState.hasRendered true st obj key
      · obtain ⟨r, hgk⟩ := Option.isSome_iff_exists.mp
          (hasRendered_debug_getKey_isSome obj key hr)
        cases r <;> simp [runAction, RunnerState.assertNotRendered, hin, hr, hgk, hds]
      · simp [runAction, RunnerState.assertNotRendered, hin, hr, hds]
    · simp [runAction, RunnerState.assertNotRendered, hin, hds]
  | callHasRendered obj key => simp [runAction, hds]
  | throwErr e => simp [isCall] at ha

lemma runOp_calls_ok (op : List Action) (hop : op.all isCall = true)
    (ds : DebugStack) (hds : st.debugStack = some ds) :
    (runOp true op st).1 = none ∧
      (runOp true op st).2.debugStack = some ds ∧
      (runOp true op st).2.transactionId = st.transactionId ∧
      (runOp true op st).2.inTransaction = st.inTransaction := by
  induction op generalizing st with
  | nil => simp [runOp, hds]
  | cons a rest ih =>
    have hall : isCall a = true ∧ rest.all isCall = true := by
      simpa [List.all_cons] using hop
    obtain ⟨h1, h2, h3, h4⟩ := @runAction_call_ok st a hall.1 ds hds
    cases hra : runAction true a st with
    | mk e1 st1 =>
      rw [hra] at h1 h2 h3 h4
      cases e1 with
      | none =>
        obtain ⟨g1, g2, g3, g4⟩ := @ih st1 hall.2 h2
        exact ⟨by simpa [runOp, hra] using g1, by simpa [runOp, hra] using g2,
          by simpa [runOp, hra] using g3.trans h3,
          by simpa [runOp, hra] using g4.trans h4⟩
      | some e => simp at h1

lemma runOp_append (debug : Bool) (xs ys : List Action) :
    runOp debug (xs ++ ys) st =
      match runOp debug xs st with
      | (some e, st1) => (some e, st1)
      | (none, st1) => runOp debug ys st1 := by
  induction xs generalizing st with
  | nil => simp [runOp]
  | cons a rest ih =>
    cases hra : runAction debug a st with
    | mk e1 st1 =>
      cases e1 with
      | none => simpa [runOp, hra] using ih
      | some e => simp [runOp, hra]

lemma before_shouldReflush (debug : Bool) (context : Context) :
    (RunnerState.before debug st context).2.shouldReflush = false := by
  cases debug with
  | true => cases h : context.env <;> simp [RunnerState.before, h]
  | false => simp [RunnerState.before]

lemma before_debug_some (context : Context) (e : Env) (henv : context.env = some e) :
    RunnerState.before true st context =
      (none, { st with inTransaction := true, shouldReflush := false, debugStack := some e.debugStack }) := by
  simp [RunnerState.before, henv]

lemma after_fields (debug : Bool) :
    (RunnerState.after debug st).inTransaction = false ∧
      (RunnerState.after debug st).transactionId = st.transactionId + 1 ∧
      (RunnerState.after debug st).shouldReflush = st.shouldReflush ∧
      (RunnerState.after debug st).weakMap = fun _ => none := by
  cases debug <;> simp [RunnerState.after, RunnerState.clearObjectMap]

lemma after_debugStack_debug :
    (RunnerState.after true st).debugStack = none := by
  simp [RunnerState.after, RunnerState.clearObjectMap]

lemma before_weakMap (debug : Bool) (context : Context) :
    (RunnerState.before debug st context).2.weakMap = st.weakMap := by
  cases debug with
  | true => cases h : context.env <;> simp [RunnerState.before, h]
  | false => simp [RunnerState.before]

lemma runOp_append_ok (debug : Bool) (xs ys : List Action) (st1 : RunnerState)
    (h : runOp debug xs st = (none, st1)) :
    runOp debug (xs ++ ys) st = runOp debug ys st1 := by
  rw [runOp_append, h]

lemma runInTransaction_thrown (context : Context) (e : Env)
    (henv : context.env = some e) (op : List Action) (stp : RunnerState)
    (err : String)
    (hop : runOp true op { st with inTransaction := true, shouldReflush := false, debugStack := some e.debugStack } = (some err, stp)) :
    runInTransaction true context op st = (.thrown err, RunnerState.after true stp) := by
  simp only [runInTransaction, @before_debug_some st context e henv, hop]

lemma runInTransaction_snd_after (context : Context) (e : Env)
    (henv : context.env = some e) (op : List Action) (st : RunnerState) :
    ∃ stm, (runInTransaction true context op st).2 = RunnerState.after true stm := by
  simp only [runInTransaction, @before_debug_some st context e henv]
  cases hrp : runOp true op { st with inTransaction := true, shouldReflush := false, debugStack := some e.debugStack } with
  | mk e1 stp =>
    cases e1 with
    | none => exact ⟨stp, rfl⟩
    | some x => exact ⟨stp, rfl⟩

end Lemmas

/-- C1: In diagnostic builds, inside a single transaction, `didRender(obj, key, ref)`
followed by `assertNotRendered(obj, key)` makes that `runInTransaction` call
return `true`. -/
theorem basic_hazard_returns_true (context : Context) (e : Env)
    (henv : context.env = some e) (st : RunnerState) (obj : Nat) (key : String)
    (ref : Option Ref) :
    (runInTransaction true context
      [.callDidRender obj key ref, .callAssertNotRendered obj key] st).1 =
      .normal true := by
  simp [runInTransaction, RunnerState.before, henv, runOp, runAction,
    RunnerState.didRender, RunnerState.assertNotRendered, RunnerState.hasRendered,
    RunnerState.after, RunnerState.clearObjectMap, raiseAssertion]

theorem basic_hazard_returns_true_witness :
    (runInTransaction true ⟨some ⟨⟨some "template"⟩⟩⟩
      [.callDidRender 1 "x" (some ⟨some "this.val"⟩), .callAssertNotRendered 1 "x"]
      initialRunner).1 = .normal true :=
  basic_hazard_returns_true ⟨some ⟨⟨some "template"⟩⟩⟩ ⟨⟨some "template"⟩⟩ rfl
    initialRunner 1 "x" (some ⟨some "this.val"⟩)

/-- C2: In both of the runner class build modes (DEBUG and RELEASE), inside a
transaction, `assertNotRendered` on a pair recorded by `didRender` in the same
transaction completes without throwing and unconditionally sets the
`shouldReflush` (pendingReflush) flag to `true`: the minimal reflush signal is
not skipped when the human-readable diagnostic branch is stripped. -/
theorem assertNotRendered_sets_reflush_in_both_modes (debug : Bool)
    (st : RunnerState) (hin : st.inTransaction = true)
    (hds : debug = true → (st.debugStack).isSome = true)
    (obj : Nat) (key : String) (ref : Option Ref) :
    ∃ st1 st2, RunnerState.didRender debug st obj key ref = (none, st1) ∧
      RunnerState.assertNotRendered debug st1 obj key = (none, st2) ∧
      st2.shouldReflush = true := by
  cases debug with
  | false =>
    have hd := @didRender_inTx_release st obj key ref hin
    have hr : RunnerState.hasRendered false
        (st.setKey obj key (.releaseRec st.transactionId)) obj key = true := by
      simp [RunnerState.hasRendered, hin]
    obtain ⟨st2, ha, hflag, _⟩ :=
      assertNotRendered_rendered false obj key (by simpa using hin)
        (by simp) hr
    exact ⟨_, st2, hd, ha, hflag⟩
  | true =>
    obtain ⟨ds, hdss⟩ := Option.isSome_iff_exists.mp (hds rfl)
    have hd := @didRender_inTx_debug st ds obj key ref hin hdss
    have hr : RunnerState.hasRendered true
        (st.setKey obj key (.debugRec ref ds.peek)) obj key = true := by
      simp [RunnerState.hasRendered, hin]
    obtain ⟨st2, ha, hflag, _⟩ :=
      assertNotRendered_rendered true obj key (by simpa using hin)
        (by simpa using congrArg Option.isSome hdss) hr
    exact ⟨_, st2, hd, ha, hflag⟩

theorem assertNotRendered_sets_reflush_in_both_modes_witness :
    (∃ st1 st2,
      RunnerState.didRender true { initialRunner with inTransaction := true, debugStack := some ⟨some "tpl"⟩ } 1 "x" none = (none, st1) ∧
      RunnerState.assertNotRendered true st1 1 "x" = (none, st2) ∧
      st2.shouldReflush = true) ∧
    (∃ st1 st2,
      RunnerState.didRender false { initialRunner with inTransaction := true } 1 "x" none = (none, st1) ∧
      RunnerState.assertNotRendered false st1 1 "x" = (none, st2) ∧
      st2.shouldReflush = true) :=
  ⟨assertNotRendered_sets_reflush_in_both_modes true
      { initialRunner with inTransaction := true, debugStack := some ⟨some "tpl"⟩ }
      rfl (fun _ => rfl) 1 "x" none,
    assertNotRendered_sets_reflush_in_both_modes false
      { initialRunner with inTransaction := true }
      rfl (fun h => by simp at h) 1 "x" none⟩

/-- C5: Inside a (diagnostic-build) transaction on a state whose table has no
record for the probed pair, `didRender(obj, key, ref)` followed by
`assertNotRendered` on a different key of the same object, or on the same key
of a different object, leaves the reflush flag unset: `runInTransaction`
returns `false`. -/
theorem no_false_positive_different_key_or_object (context : Context) (e : Env)
    (henv : context.env = some e) (st : RunnerState)
    (obj obj2 : Nat) (key key2 : String) (ref : Option Ref)
    (hk : key2 ≠ key) (ho : obj2 ≠ obj)
    (hg1 : st.getKey obj key2 = none) (hg2 : st.getKey obj2 key = none) :
    (runInTransaction true context
        [.callDidRender obj key ref, .callAssertNotRendered obj key2] st).1 =
      .normal false ∧
    (runInTransaction true context
        [.callDidRender obj key ref, .callAssertNotRendered obj2 key] st).1 =
      .normal false := by
  have hg1' : RunnerState.getKey { st with inTransaction := true, shouldReflush := false, debugStack := some e.debugStack } obj key2 = none := hg1
  have hg2' : RunnerState.getKey { st with inTransaction := true, shouldReflush := false, debugStack := some e.debugStack } obj2 key = none := hg2
  have hne1 := @getKey_setKey_ne
    { st with inTransaction := true, shouldReflush := false, debugStack := some e.debugStack }
    obj obj key key2 (Record.debugRec ref e.debugStack.peek) (Or.inr hk)
  have hne2 := @getKey_setKey_ne
    { st with inTransaction := true, shouldReflush := false, debugStack := some e.debugStack }
    obj obj2 key key (Record.debugRec ref e.debugStack.peek) (Or.inl ho)
  constructor
  · simp [runInTransaction, RunnerState.before, henv, runOp, runAction,
      RunnerState.didRender, RunnerState.assertNotRendered, RunnerState.hasRendered,
      RunnerState.after, RunnerState.clearObjectMap, hne1, hg1']
  · simp [runInTransaction, RunnerState.before, henv, runOp, runAction,
      RunnerState.didRender, RunnerState.assertNotRendered, RunnerState.hasRendered,
      RunnerState.after, RunnerState.clearObjectMap, hne2, hg2']

theorem no_false_positive_different_key_or_object_witness :
    (runInTransaction true ⟨some ⟨⟨none⟩⟩⟩
        [.callDidRender 1 "x" none, .callAssertNotRendered 1 "y"]
        initialRunner).1 = .normal false ∧
    (runInTransaction true ⟨some ⟨⟨none⟩⟩⟩
        [.callDidRender 1 "x" none, .callAssertNotRendered 2 "x"]
        initialRunner).1 = .normal false :=
  no_false_positive_different_key_or_object ⟨some ⟨⟨none⟩⟩⟩ ⟨⟨none⟩⟩ rfl
    initialRunner 1 2 "x" "y" none (by decide) (by decide) rfl rfl

/-- C6: When no transaction is active, `didRender` and `assertNotRendered`
return without throwing and leave the entire runner state unchanged (so the
reflush flag is never set), and `hasRendered` returns `false` immediately. -/
theorem outside_transaction_noop (debug : Bool) (st : RunnerState)
    (h : st.inTransaction = false) (obj : Nat) (key : String) (ref : Option Ref) :
    RunnerState.didRender debug st obj key ref = (none, st) ∧
    RunnerState.assertNotRendered debug st obj key = (none, st) ∧
    RunnerState.hasRendered debug st obj key = false := by
  refine ⟨?_, ?_, ?_⟩ <;>
    simp [RunnerState.didRender, RunnerState.assertNotRendered,
      RunnerState.hasRendered, h]

theorem outside_transaction_noop_witness :
    RunnerState.didRender true initialRunner 1 "x" none = (none, initialRunner) ∧
    RunnerState.assertNotRendered true initialRunner 1 "x" = (none, initialRunner) ∧
    RunnerState.hasRendered true initialRunner 1 "x" = false :=
  outside_transaction_noop true initialRunner rfl 1 "x" none

/-- C7: The module-level non-DEBUG `runInTransaction` invokes the supplied
operation exactly once (the resulting world is one application of the
operation) and returns `false`. -/
theorem nondebug_runInTransaction_once_false {α : Type} (f : α → α) (w : α) :
    runInTransactionNonDebug (fun x => (none, f x)) w = (.normal false, f w) := rfl

/-- C9: Calling `didRender` twice for the same pair within one transaction
overwrites the prior record with the second one, and a transaction consisting
of exactly those two calls (no `assertNotRendered`) returns `false`. -/
theorem didRender_twice_overwrites_no_reflush (context : Context) (e : Env)
    (henv : context.env = some e) (st : RunnerState) (ds : DebugStack)
    (hin : st.inTransaction = true) (hds : st.debugStack = some ds)
    (obj : Nat) (key : String) (ref1 ref2 : Option Ref) :
    (RunnerState.didRender true
        (RunnerState.didRender true st obj key ref1).2 obj key ref2).2.getKey obj key =
      some (.debugRec ref2 ds.peek) ∧
    (runInTransaction true context
        [.callDidRender obj key ref1, .callDidRender obj key ref2] st).1 =
      .normal false := by
  constructor
  · simp [RunnerState.didRender, hin, hds]
  · simp [runInTransaction, RunnerState.before, henv, runOp, runAction,
      RunnerState.didRender, RunnerState.after, RunnerState.clearObjectMap]

theorem didRender_twice_overwrites_no_reflush_witness :
    (RunnerState.didRender true
        (RunnerState.didRender true { initialRunner with inTransaction := true, debugStack := some ⟨some "tpl"⟩ } 1 "x" (some ⟨some "a"⟩)).2 1 "x" (some ⟨some "b"⟩)).2.getKey 1 "x" =
      some (.debugRec (some ⟨some "b"⟩) (some "tpl")) ∧
    (runInTransaction true ⟨some ⟨⟨some "tpl"⟩⟩⟩
        [.callDidRender 1 "x" (some ⟨some "a"⟩), .callDidRender 1 "x" (some ⟨some "b"⟩)]
        { initialRunner with inTransaction := true, debugStack := some ⟨some "tpl"⟩ }).1 =
      .normal false :=
  didRender_twice_overwrites_no_reflush ⟨some ⟨⟨some "tpl"⟩⟩⟩ ⟨⟨some "tpl"⟩⟩ rfl
    { initialRunner with inTransaction := true, debugStack := some ⟨some "tpl"⟩ }
    ⟨some "tpl"⟩ rfl rfl 1 "x" (some ⟨some "a"⟩) (some ⟨some "b"⟩)

/-- C10: In diagnostic builds, when the context does not expose
`env.debugStack`, `runInTransaction` throws the setup TypeError before the
operation is ever invoked (any operation gives the same result), and the
cleanup does not run: the runner stays marked in-transaction and keeps its
record table, `transactionId` and `debugStack` unchanged (only the in-`before`
mutations `inTransaction := true` and `shouldReflush := false` happened). -/
theorem before_throw_skips_operation_and_cleanup (context : Context)
    (h : context.env = none) (op : List Action) (st : RunnerState) :
    runInTransaction true context op st =
      (.thrown "TypeError: context.env is undefined", { st with inTransaction := true, shouldReflush := false }) := by
  simp [runInTransaction, RunnerState.before, h]

theorem before_throw_skips_operation_and_cleanup_witness :
    runInTransaction true ⟨none⟩ [.callDidRender 1 "x" none] initialRunner =
      (.thrown "TypeError: context.env is undefined", { initialRunner with inTransaction := true, shouldReflush := false }) :=
  before_throw_skips_operation_and_cleanup ⟨none⟩ rfl
    [.callDidRender 1 "x" none] initialRunner

/-- C3: If the wrapped operation throws after any prefix of runner call-backs,
`runInTransaction` propagates the thrown value unchanged, and the guaranteed
cleanup still runs: the runner ends not-in-transaction, with `transactionId`
incremented by exactly 1 over its value at entry, the debug-stack reference
cleared and the record table replaced by a fresh empty one; consequently the
`before` of any subsequent transaction starts from `shouldReflush = false` and
an empty record table. -/
theorem operation_throw_propagates_with_cleanup (context context2 : Context)
    (e : Env) (henv : context.env = some e) (st : RunnerState)
    (pre rest : List Action) (err : String) (hpre : pre.all isCall = true) :
    (runInTransaction true context (pre ++ .throwErr err :: rest) st).1 = .thrown err ∧
    (runInTransaction true context (pre ++ .throwErr err :: rest) st).2.inTransaction = false ∧
    (runInTransaction true context (pre ++ .throwErr err :: rest) st).2.transactionId = st.transactionId + 1 ∧
    (runInTransaction true context (pre ++ .throwErr err :: rest) st).2.debugStack = none ∧
    (runInTransaction true context (pre ++ .throwErr err :: rest) st).2.weakMap = (fun _ => none) ∧
    (RunnerState.before true ((runInTransaction true context (pre ++ .throwErr err :: rest) st).2) context2).2.shouldReflush = false ∧
    (RunnerState.before true ((runInTransaction true context (pre ++ .throwErr err :: rest) st).2) context2).2.weakMap = (fun _ => none) := by
  obtain ⟨hok, hds1, htid, hintx⟩ := @runOp_calls_ok
    { st with inTransaction := true, shouldReflush := false, debugStack := some e.debugStack }
    pre hpre e.debugStack rfl
  cases hrp : runOp true pre { st with inTransaction := true, shouldReflush := false, debugStack := some e.debugStack } with
  | mk e1 stp =>
    rw [hrp] at hok hds1 htid hintx
    cases e1 with
    | some x => exact absurd hok (by simp)
    | none =>
      have hthrow : runOp true (Action.throwErr err :: rest) stp = (some err, stp) := by
        simp [runOp, runAction]
      have hops : runOp true (pre ++ Action.throwErr err :: rest)
          { st with inTransaction := true, shouldReflush := false, debugStack := some e.debugStack } = (some err, stp) := by
        rw [runOp_append_ok true pre _ stp hrp, hthrow]
      have hrun := @runInTransaction_thrown st context e henv _ stp err hops
      rw [hrun]
      refine ⟨rfl, (after_fields true).1, ?_, after_debugStack_debug,
        (after_fields true).2.2.2, before_shouldReflush true context2, ?_⟩
      · rw [(after_fields true).2.1, htid]
      · rw [before_weakMap]
        exact (after_fields true).2.2.2

theorem operation_throw_propagates_with_cleanup_witness :
    (runInTransaction true ⟨some ⟨⟨none⟩⟩⟩ ([.callDidRender 1 "x" none] ++ .throwErr "boom" :: []) initialRunner).1 = .thrown "boom" ∧
    (runInTransaction true ⟨some ⟨⟨none⟩⟩⟩ ([.callDidRender 1 "x" none] ++ .throwErr "boom" :: []) initialRunner).2.inTransaction = false ∧
    (runInTransaction true ⟨some ⟨⟨none⟩⟩⟩ ([.callDidRender 1 "x" none] ++ .throwErr "boom" :: []) initialRunner).2.transactionId = initialRunner.transactionId + 1 ∧
    (runInTransaction true ⟨some ⟨⟨none⟩⟩⟩ ([.callDidRender 1 "x" none] ++ .throwErr "boom" :: []) initialRunner).2.debugStack = none ∧
    (runInTransaction true ⟨some ⟨⟨none⟩⟩⟩ ([.callDidRender 1 "x" none] ++ .throwErr "boom" :: []) initialRunner).2.weakMap = (fun _ => none) ∧
    (RunnerState.before true ((runInTransaction true ⟨some ⟨⟨none⟩⟩⟩ ([.callDidRender 1 "x" none] ++ .throwErr "boom" :: []) initialRunner).2) ⟨some ⟨⟨none⟩⟩⟩).2.shouldReflush = false ∧
    (RunnerState.before true ((runInTransaction true ⟨some ⟨⟨none⟩⟩⟩ ([.callDidRender 1 "x" none] ++ .throwErr "boom" :: []) initialRunner).2) ⟨some ⟨⟨none⟩⟩⟩).2.weakMap = (fun _ => none) :=
  operation_throw_propagates_with_cleanup ⟨some ⟨⟨none⟩⟩⟩ ⟨some ⟨⟨none⟩⟩⟩ ⟨⟨none⟩⟩
    rfl initialRunner [.callDidRender 1 "x" none] [] "boom" rfl

/-- C4: A hazard recorded and triggered in one transaction does not leak into
the next: after a transaction that ran `didRender(obj, key, ref)` followed by
`assertNotRendered(obj, key)`, a separate subsequent transaction that calls
`assertNotRendered(obj, key)` with no intervening `didRender` returns `false`
(the record table is discarded wholesale at the end of every transaction). -/
theorem hazard_isolated_across_transactions (ctx1 ctx2 : Context) (e1 e2 : Env)
    (h1 : ctx1.env = some e1) (h2 : ctx2.env = some e2)
    (st : RunnerState) (obj : Nat) (key : String) (ref : Option Ref) :
    (runInTransaction true ctx2 [.callAssertNotRendered obj key]
      (runInTransaction true ctx1
        [.callDidRender obj key ref, .callAssertNotRendered obj key] st).2).1 =
      .normal false := by
  obtain ⟨stm, hsnd⟩ := runInTransaction_snd_after ctx1 e1 h1 _ st
  rw [hsnd]
  simp [runInTransaction, RunnerState.before, h2, runOp, runAction,
    RunnerState.assertNotRendered, RunnerState.hasRendered, RunnerState.getKey,
    RunnerState.after, RunnerState.clearObjectMap]

theorem hazard_isolated_across_transactions_witness :
    (runInTransaction true ⟨some ⟨⟨none⟩⟩⟩ [.callAssertNotRendered 1 "x"]
      (runInTransaction true ⟨some ⟨⟨none⟩⟩⟩
        [.callDidRender 1 "x" none, .callAssertNotRendered 1 "x"]
        initialRunner).2).1 = .normal false :=
  hazard_isolated_across_transactions ⟨some ⟨⟨none⟩⟩⟩ ⟨some ⟨⟨none⟩⟩⟩ ⟨⟨none⟩⟩ ⟨⟨none⟩⟩
    rfl rfl initialRunner 1 "x" none

/-- C8: The reflush flag is monotone within a transaction: whatever sequence of
`didRender` / `assertNotRendered` / `hasRendered` call-backs (or even throws)
runs while it is set, no step resets it; only `before`, the start of a new
transaction, resets it to `false`. -/
theorem pendingReflush_monotone_within_transaction (debug : Bool)
    (op : List Action) (st : RunnerState) (_hin : st.inTransaction = true)
    (h : st.shouldReflush = true) (context : Context) :
    (runOp debug op st).2.shouldReflush = true ∧
    (RunnerState.before debug st context).2.shouldReflush = false :=
  ⟨runOp_mono debug op h, before_shouldReflush debug context⟩

theorem pendingReflush_monotone_within_transaction_witness :
    (runOp true [.callDidRender 1 "x" none, .callHasRendered 1 "x", .callAssertNotRendered 1 "x"]
      { initialRunner with inTransaction := true, shouldReflush := true, debugStack := some ⟨none⟩ }).2.shouldReflush = true ∧
    (RunnerState.before true
      { initialRunner with inTransaction := true, shouldReflush := true, debugStack := some ⟨none⟩ }
      ⟨some ⟨⟨none⟩⟩⟩).2.shouldReflush = false :=
  pendingReflush_monotone_within_transaction true
    [.callDidRender 1 "x" none, .callHasRendered 1 "x", .callAssertNotRendered 1 "x"]
    { initialRunner with inTransaction := true, shouldReflush := true, debugStack := some ⟨none⟩ }
    rfl rfl ⟨some ⟨⟨none⟩⟩⟩

end EmberTransaction
